import Mathlib

/-!
Verification of the per-tenant WhatsApp session gateway.

The repository holds several variants of the same Express server.  The
primary model below follows the second (most complete) document of
`src/node.js` (lines 158-452): the registry `clients`, the `get-qr`
route with its 20 000 ms QR cache, `initializeClient` with its
destroy-then-replace step and 15 000 ms QR generation timeout, the
client event handlers (`ready`, `auth_failure`, `disconnected`), the
`send-message` and `send-bulk-messages` routes, the `logout` route and
the centralized error middleware.  Additional namespaced definitions
model the first document of `src/node.js` (the `get-qr` handler at
lines 42-75) and the S3-backed variant `src/unnamed/part_001`
(`initializeClient` restore and `logout` purge).

The automated messaging client and the object store are external
collaborators: a client instance is represented by a numeric handle,
its `sendMessage` by an oracle argument, and every externally visible
effect (constructing a client, destroying one, forwarding a send,
storage operations) is recorded in an explicit action trace so that
ordering claims can be stated.
-/

namespace WaGateway

/-- Polymorphic association-list lookup, the meaning of `clients[userId]`
(`undefined` becomes `none`). -/
def alookup {α : Type} : List (String × α) → String → Option α
  | [], _ => none
  | (k, v) :: t, u => if k = u then some v else alookup t u

/-- Association-list assignment, the meaning of `clients[userId] = r`:
replaces the value at an existing key, otherwise appends the pair. -/
def aset {α : Type} : List (String × α) → String → α → List (String × α)
  | [], u, r => [(u, r)]
  | (k, v) :: t, u, r => if k = u then (u, r) :: t else (k, v) :: aset t u r

/-- Association-list removal, the meaning of `delete clients[userId]`. -/
def aerase {α : Type} : List (String × α) → String → List (String × α)
  | [], _ => []
  | (k, v) :: t, u => if k = u then t else (k, v) :: aerase t u

/-- One session record, the object
`{ client, isReady, qrCode, qrGeneratedAt }` stored in `clients`
(node.js line 238).  The automated client instance is identified by a
numeric handle. -/
structure SessionRec where
  clientId : Nat
  isReady : Bool
  qrCode : Option String
  qrGeneratedAt : Option Nat
deriving DecidableEq, Repr

/-- One entry of the bulk result map (node.js lines 381-389): a success
carries the client's response, a failure carries
`error.message || "An error occurred"`, `error.name || 'UnknownError'`
and `error.stack || 'No stack trace available'`. -/
inductive BulkEntry where
  | ok (response : Nat)
  | fail (error ty details : String)
deriving DecidableEq, Repr

/-- The JSON responses the routes produce.  `okMsg` is
`{status:'success', message}`, `errMsg code m` is
`res.status(code).json({status:'error', message: m})` (code 200 when the
route uses plain `res.json`), `qr` is `{qr: url}`, `sendOk` is
`{status:'success', response}` and `bulk` is the per-destination result
map of the bulk route. -/
inductive Resp where
  | okMsg (message : String)
  | errMsg (code : Nat) (message : String)
  | qr (payload : String)
  | sendOk (response : Nat)
  | bulk (results : List (String × BulkEntry))
deriving DecidableEq, Repr

/-- Externally visible effects, recorded in order: constructing and
starting an automated client (`new Client` + `initialize()`), destroying
one, a forwarded `sendMessage`, an object-store read, a file write, an
object-store delete-by-prefix and an upload of a whole session
directory under a key prefix. -/
inductive Action where
  | newClient (id : Nat)
  | destroyClient (id : Nat)
  | clientSend (id : Nat) (dest body : String)
  | s3Get (key : String)
  | fsWrite (path : String)
  | s3DeleteAll (pfx : String)
  | s3PutDir (pfx : String)
deriving DecidableEq, Repr

/-- What a route hands the framework: a response it sent itself, a call
`next(error)` with the thrown error's message, name and stack, or no
settlement at all (an `await` whose promise never settles, so no
response is ever produced). -/
inductive RouteOut where
  | resp (r : Resp)
  | nextErr (message name stack : String)
  | hang
deriving DecidableEq, Repr

/-- The centralized error-handling middleware (node.js lines 445-448):
a route response passes through, `next(error)` becomes a 500 with a
fixed message, and an unsettled route never answers. -/
def errorMiddleware : RouteOut → Option Resp
  | .resp r => some r
  | .nextErr _ _ _ => some (Resp.errMsg 500 "An unexpected error occurred.")
  | .hang => none

/-- Outcome of one call of the external client's `sendMessage`:
a resolved response or a thrown error (message, name, stack). -/
inductive SendOutcome where
  | ok (response : Nat)
  | thrown (message name stack : String)
deriving DecidableEq, Repr

/-- The process state of the node.js server: the `clients` registry and
a counter supplying the identity of the next constructed client. -/
structure ServerState where
  clients : List (String × SessionRec)
  nextClientId : Nat
deriving DecidableEq, Repr

/-- JavaScript arithmetic coercion of `qrGeneratedAt`: `null` is 0 in
`Date.now() - clients[userId].qrGeneratedAt`. -/
def jsNum : Option Nat → Nat
  | none => 0
  | some t => t

/-- JavaScript truthiness of the cached `qrCode` field in
`clients[userId].qrCode && ...`: `null` and the empty string are falsy. -/
def qrTruthy : Option String → Bool
  | none => false
  | some s => !(s == "")

/-- The external `qrcode.toDataURL` encoder, modelled as a concrete
injective encoding of the raw pairing payload. -/
def toDataURL (qrRaw : String) : String :=
  "data:image/png;base64," ++ qrRaw

/-- node.js `initializeClient`, lines 218-238 (the synchronous part up
to installing the fresh record): if a record exists its client is
destroyed and the record deleted, then a new client is constructed and
a fresh not-ready record installed.  QR generation and the event
handlers are modelled as separate steps below.  The `catch` around the
destruction only logs, and the subsequent assignment overwrites the
record in every case, so destruction is modelled as succeeding. -/
def initializeClient (st : ServerState) (u : String) : ServerState × List Action :=
  let cleanup :=
    match alookup st.clients u with
    | some r => (aerase st.clients u, [Action.destroyClient r.clientId])
    | none => (st.clients, ([] : List Action))
  let cid := st.nextClientId
  (⟨aset cleanup.1 u ⟨cid, false, none, none⟩, cid + 1⟩,
    cleanup.2 ++ [Action.newClient cid])

/-- node.js `GET /get-qr/:userId`, lines 303-319: answer `Session
already active` for a ready record, serve the cached QR when
`clients[userId] && clients[userId].qrCode && Date.now() -
clients[userId].qrGeneratedAt < QR_CACHE_DURATION` (20 000 ms,
JavaScript coercions preserved), otherwise run `initializeClient`; in
that case the response comes later from the generation (third component
`none`). -/
def getQr (st : ServerState) (u : String) (now : Nat) :
    ServerState × List Action × Option Resp :=
  match alookup st.clients u with
  | some r =>
    if r.isReady then (st, [], some (Resp.okMsg "Session already active"))
    else if qrTruthy r.qrCode && decide (now - jsNum r.qrGeneratedAt < 20000) then
      (st, [], some (Resp.qr (r.qrCode.getD "")))
    else
      ((initializeClient st u).1, (initializeClient st u).2, none)
  | none => ((initializeClient st u).1, (initializeClient st u).2, none)

/-- The body of the `client.once('qr', ...)` handler inside
`generateQRCode` (node.js lines 248-262): store the encoded payload and
its timestamp on the tenant's record.  A missing record would make the
field assignment throw inside the async handler, absorbed by the global
`unhandledRejection` handler, so the state is unchanged then. -/
def qrEvent (st : ServerState) (u url : String) (t : Nat) : ServerState :=
  match alookup st.clients u with
  | some r =>
    ⟨aset st.clients u { r with qrCode := some url, qrGeneratedAt := some t },
      st.nextClientId⟩
  | none => st

/-- node.js `generateQRCode` (lines 242-264) together with the
surrounding `try/await/catch` (lines 295-300): the qr event either
arrives `d` ms after the start carrying the raw payload (the handler
caches `toDataURL` of it and answers `{qr}`), or the 15 000 ms timer
fires first and the catch answers a 500.  Returns the state, the
absolute time at which the caller is answered, and the response. -/
def generateQRCode (st : ServerState) (u : String) (startTime : Nat)
    (arrival : Option (Nat × String)) : ServerState × Nat × Resp :=
  match arrival with
  | some (d, qrRaw) =>
    if d < 15000 then
      (qrEvent st u (toDataURL qrRaw) (startTime + d), startTime + d,
        Resp.qr (toDataURL qrRaw))
    else (st, startTime + 15000, Resp.errMsg 500 "Failed to generate QR code")
  | none => (st, startTime + 15000, Resp.errMsg 500 "Failed to generate QR code")

/-- The `client.on('ready', ...)` handler (node.js lines 266-271): mark
the record ready and clear the cached QR code and its timestamp. -/
def readyEvent (st : ServerState) (u : String) : ServerState :=
  match alookup st.clients u with
  | some r =>
    ⟨aset st.clients u { r with isReady := true, qrCode := none, qrGeneratedAt := none },
      st.nextClientId⟩
  | none => st

/-- The `client.on('auth_failure', ...)` handler (node.js lines
273-277): clear the ready flag, then delete the record. -/
def authFailureEvent (st : ServerState) (u : String) : ServerState :=
  match alookup st.clients u with
  | some r =>
    ⟨aerase (aset st.clients u { r with isReady := false }) u, st.nextClientId⟩
  | none => st

/-- The `client.on('disconnected', ...)` handler (node.js lines
279-291): clear the ready flag, destroy the client, then attempt
`deleteFolderRecursive('./.wwebjs_auth/session-' + userId)`.  That
helper (lines 197-211) references `fs` and `path`, which this file
never imports, so the call throws a ReferenceError that the `catch`
only logs: no credential data is deleted (no deletion action is
emitted).  Finally the record is deleted. -/
def disconnectedEvent (st : ServerState) (u : String) : ServerState × List Action :=
  match alookup st.clients u with
  | some r =>
    (⟨aerase (aset st.clients u { r with isReady := false }) u, st.nextClientId⟩,
      [Action.destroyClient r.clientId])
  | none => (st, [])

/-- node.js `POST /logout/:userId` (lines 400-441): 404 without a
record; otherwise destroy the client, then call
`deleteFolderRecursive`, which throws a ReferenceError (`fs` and `path`
are never imported in this file), so the inner `catch (destroyError)`
answers a 500 and the route returns before `delete clients[userId]`:
the record survives and no credential data is deleted. -/
def logoutRoute (st : ServerState) (u : String) :
    ServerState × List Action × Resp :=
  match alookup st.clients u with
  | none => (st, [], Resp.errMsg 404 ("No active session found for user " ++ u))
  | some r =>
    (st, [Action.destroyClient r.clientId],
      Resp.errMsg 500 ("Failed to log out user " ++ u))

/-- The regular expression of the send route (node.js line 345),
translated character class by character class:
grep `^[1-9]\d{10,14}$` means one character in `'1'..'9'` followed by
10 to 14 characters in `'0'..'9'`. -/
def validPhoneNumber (s : String) : Bool :=
  match s.data with
  | [] => false
  | c :: rest =>
    ('1' ≤ c && c ≤ '9') && (10 ≤ rest.length && rest.length ≤ 14)
      && rest.all (fun d => '0' ≤ d && d ≤ '9')

/-- node.js `POST /send-message/:userId` (lines 336-363): reject 400
when no record is ready, reject 400 on a destination failing the
format check, otherwise forward `phoneNumber + '@c.us'` to the client's
`sendMessage`.  A resolved send answers success; a thrown error reaches
the route's catch, which calls `next(error)`; a never-settling send
leaves the route unanswered. -/
def sendMessageRoute (st : ServerState) (u phone msg : String)
    (oracle : Option SendOutcome) : ServerState × List Action × RouteOut :=
  match alookup st.clients u with
  | none =>
    (st, [], RouteOut.resp (Resp.errMsg 400 "User session is not ready or is inactive"))
  | some r =>
    if !r.isReady then
      (st, [], RouteOut.resp (Resp.errMsg 400 "User session is not ready or is inactive"))
    else if !validPhoneNumber phone then
      (st, [], RouteOut.resp (Resp.errMsg 400 ("Invalid phone number format: " ++ phone)))
    else
      (st, [Action.clientSend r.clientId (phone ++ "@c.us") msg],
        match oracle with
        | some (.ok n) => RouteOut.resp (Resp.sendOk n)
        | some (.thrown m nm sk) => RouteOut.nextErr m nm sk
        | none => RouteOut.hang)

/-- JavaScript `x || d` for the strings of a caught error's fields:
the default replaces a falsy (empty) value. -/
def orDefault (s d : String) : String := if s = "" then d else s

/-- The per-item result entry of the bulk route (node.js lines
377-390). -/
def bulkEntryOf : SendOutcome → BulkEntry
  | .ok n => .ok n
  | .thrown m nm sk =>
    .fail (orDefault m "An error occurred") (orDefault nm "UnknownError")
      (orDefault sk "No stack trace available")

/-- node.js `POST /send-bulk-messages/:userId` (lines 365-397): one
readiness check up front, then every entry of the body is attempted in
turn with `phoneNumber + '@c.us'`; a thrown send is caught per item and
recorded, so no item aborts the loop.  The oracle gives the client's
outcome for each destination/message pair. -/
def sendBulkRoute (st : ServerState) (u : String)
    (items : List (String × String)) (oracle : String → String → SendOutcome) :
    ServerState × List Action × RouteOut :=
  match alookup st.clients u with
  | none =>
    (st, [], RouteOut.resp (Resp.errMsg 400 "Session not ready or does not exist"))
  | some r =>
    if !r.isReady then
      (st, [], RouteOut.resp (Resp.errMsg 400 "Session not ready or does not exist"))
    else
      (st, items.map (fun it => Action.clientSend r.clientId (it.1 ++ "@c.us") it.2),
        RouteOut.resp (Resp.bulk
          (items.map (fun it => (it.1, bulkEntryOf (oracle it.1 it.2))))))

/-- node.js `GET /check-active/:userId` (lines 322-334). -/
def checkActive (st : ServerState) (u : String) : Resp :=
  match alookup st.clients u with
  | some r =>
    if r.isReady then Resp.okMsg "Session already active"
    else Resp.errMsg 200 "Session NOT active"
  | none => Resp.errMsg 200 "Session NOT active"

/-- Every state-touching operation of the node.js server: the routes
and the client lifecycle events. -/
inductive Op where
  | getQr (u : String) (now : Nat)
  | qrEv (u url : String) (t : Nat)
  | ready (u : String)
  | authFailure (u : String)
  | disconnected (u : String)
  | logout (u : String)
  | sendMsg (u phone msg : String) (oracle : Option SendOutcome)
  | sendBulk (u : String) (items : List (String × String))
      (oracle : String → String → SendOutcome)
  | checkActive (u : String)

/-- Dispatch of one operation: the next state, the emitted actions and
the response (after the error middleware; `none` when the response is
deferred to a pending generation or never produced). -/
def applyOp (st : ServerState) : Op → ServerState × List Action × Option Resp
  | .getQr u now => getQr st u now
  | .qrEv u url t => (qrEvent st u url t, [], none)
  | .ready u => (readyEvent st u, [], none)
  | .authFailure u => (authFailureEvent st u, [], none)
  | .disconnected u =>
    ((disconnectedEvent st u).1, (disconnectedEvent st u).2, none)
  | .logout u =>
    ((logoutRoute st u).1, (logoutRoute st u).2.1, some (logoutRoute st u).2.2)
  | .sendMsg u phone msg oracle =>
    ((sendMessageRoute st u phone msg oracle).1,
      (sendMessageRoute st u phone msg oracle).2.1,
      errorMiddleware (sendMessageRoute st u phone msg oracle).2.2)
  | .sendBulk u items oracle =>
    ((sendBulkRoute st u items oracle).1,
      (sendBulkRoute st u items oracle).2.1,
      errorMiddleware (sendBulkRoute st u items oracle).2.2)
  | .checkActive u => (st, [], some (checkActive st u))

/-- Contract of the external automated client, stated per operation: a
pairing-code event is only emitted by a client that has not yet
authenticated, hence only while the tenant's record is not ready
(spec section 4.3: the pairing-code event occurs in Initializing). -/
def opOkB (st : ServerState) : Op → Bool
  | .qrEv u _ _ =>
    match alookup st.clients u with
    | some r => !r.isReady
    | none => true
  | _ => true

/-- The record invariant of claim C7 as a computable check: a ready
record holds no cached QR code and no timestamp. -/
def recOk (r : SessionRec) : Bool :=
  !r.isReady || (r.qrCode == none && r.qrGeneratedAt == none)

/-- The registry-wide invariant check. -/
def invB (st : ServerState) : Bool :=
  st.clients.all (fun p => recOk p.2)

/-- The `verifySecretHeader` middleware's test (node.js lines 185-196):
`!secretHeader || secretHeader !== expectedSecret` rejects a missing
header, a falsy (empty) header, and any header differing from the
configured secret (an unset secret rejects everything). -/
def checkSecretB (header expected : Option String) : Bool :=
  match header with
  | none => false
  | some s =>
    if s == "" then false
    else match expected with
      | some e => s == e
      | none => false

/-- One inbound HTTP request: its `secret` header and the operation its
route would perform. -/
structure Request where
  secretHeader : Option String
  op : Op

/-- The middleware chain (node.js lines 214-216 and the routes): the
secret check runs before every route; on rejection the route never
runs, the state is untouched, no action is emitted and the answer is
the 401 body. -/
def handleRequest (st : ServerState) (expected : Option String) (req : Request) :
    ServerState × List Action × Option Resp :=
  if checkSecretB req.secretHeader expected then applyOp st req.op
  else (st, [], some (Resp.errMsg 401 "Unauthorized: Invalid secret header"))

end WaGateway

namespace WaV1

open WaGateway

/-- The fresh-session branch of the first document's `GET /get-qr`
(node.js lines 52-74): construct a client and overwrite the tenant's
registry slot with `{ client, isReady: false }` WITHOUT destroying any
pre-existing client.  The response comes from the qr event later. -/
def newSession (st : ServerState) (u : String) :
    ServerState × List Action × Option Resp :=
  let cid := st.nextClientId
  (⟨aset st.clients u ⟨cid, false, none, none⟩, cid + 1⟩,
    [Action.newClient cid], none)

/-- The first document's `GET /get-qr/:userId` (node.js lines 42-75):
answer `Session already active` for a ready record, otherwise always
start a fresh client (there is no QR cache and no destruction of a
pre-existing client in this variant). -/
def getQr (st : ServerState) (u : String) :
    ServerState × List Action × Option Resp :=
  match alookup st.clients u with
  | some r =>
    if r.isReady then (st, [], some (Resp.okMsg "Session already active"))
    else newSession st u
  | none => newSession st u

end WaV1

namespace WaP0

open WaGateway

/-- The tenant's key namespace `./wwebjs_auth/session-<u>/` of the
part_000 variant (line 251). -/
def sessionPfx (u : String) : String :=
  "./wwebjs_auth/session-" ++ u ++ "/"

/-- part_000's `client.on('qr', ...)` handler (lines 278-284): cache
the encoded payload and its timestamp on the tenant's record (and
answer the waiting caller).  A missing record would make the field
assignment throw inside the async handler, leaving the state
unchanged. -/
def qrEvent (st : ServerState) (u url : String) (t : Nat) : ServerState :=
  match alookup st.clients u with
  | some r =>
    ⟨aset st.clients u { r with qrCode := some url, qrGeneratedAt := some t },
      st.nextClientId⟩
  | none => st

/-- part_000's `client.on('ready', ...)` handler (lines 267-276): set
the ready flag, start the session-directory watcher and upload the
session directory to the store under the tenant's key prefix.  Unlike
the node.js second document's handler, it does NOT clear the cached
`qrCode` or `qrGeneratedAt`.  A missing record would make the field
assignment throw inside the async handler, leaving the state
unchanged. -/
def readyEvent (st : ServerState) (u : String) : ServerState × List Action :=
  match alookup st.clients u with
  | some r =>
    (⟨aset st.clients u { r with isReady := true }, st.nextClientId⟩,
      [Action.s3PutDir (sessionPfx u)])
  | none => (st, [])

end WaP0

namespace WaP1

open WaGateway

/-- The process state of the `src/unnamed/part_001` server: the
registry, the S3 object store (key to content) and the client
counter. -/
structure P1State where
  clients : List (String × SessionRec)
  store : List (String × String)
  nextClientId : Nat
deriving DecidableEq, Repr

/-- The tenant's credential key `wwebjs_auth/session-<u>/auth`
(part_001 lines 90-93). -/
def authKey (u : String) : String :=
  "wwebjs_auth/session-" ++ u ++ "/auth"

/-- The tenant's key namespace `wwebjs_auth/session-<u>/`
(part_001 lines 90, 237). -/
def keyNamespace (u : String) : String :=
  "wwebjs_auth/session-" ++ u ++ "/"

/-- The local path `/tmp/session-<u>/auth` the restored blob is written
to, inside the `dataPath: '/tmp'` location the client is constructed
with (part_001 lines 95-97, 104). -/
def tmpAuthPath (u : String) : String :=
  "/tmp/session-" ++ u ++ "/auth"

/-- part_001 `initializeClient`, lines 89-111: download the credential
blob (`downloadFromS3` answers `null` for a missing key, which is not
an error), write it under `/tmp` when present, then construct the
client with `LocalAuth({ clientId: userId, dataPath: '/tmp' })` and
install the fresh record.  The actions record the restore attempt
before the client construction. -/
def initializeClient (st : P1State) (u : String) : P1State × List Action :=
  let restoreActs :=
    match alookup st.store (authKey u) with
    | some _ => [Action.s3Get (authKey u), Action.fsWrite (tmpAuthPath u)]
    | none => [Action.s3Get (authKey u)]
  let cid := st.nextClientId
  (⟨aset st.clients u ⟨cid, false, none, none⟩, st.store, cid + 1⟩,
    restoreActs ++ [Action.newClient cid])

/-- The S3 listing's key test "Key starts with Prefix", as an
executable character-list comparison. -/
def strStartsWith (pfx s : String) : Bool :=
  pfx.data.isPrefixOf s.data

/-- part_001 `deleteFromS3` (lines 70-86): list every key under the
prefix and delete them all; with nothing present it returns without a
delete call. -/
def deleteFromS3 (store : List (String × String)) (pfx : String) :
    List (String × String) :=
  store.filter (fun kv => !(strStartsWith pfx kv.1))

/-- part_001 `POST /logout/:userId` (lines 235-257): 404 without a
record; otherwise destroy the client, purge every stored object under
the tenant's key namespace, remove the record and answer success. -/
def logoutRoute (st : P1State) (u : String) : P1State × List Action × Resp :=
  match alookup st.clients u with
  | none => (st, [], Resp.errMsg 404 "No active session found")
  | some r =>
    (⟨aerase st.clients u, deleteFromS3 st.store (keyNamespace u), st.nextClientId⟩,
      [Action.destroyClient r.clientId, Action.s3DeleteAll (keyNamespace u)],
      Resp.okMsg ("User " ++ u ++ " successfully logged out."))

/-- part_001 `GET /check-active/:userId` (lines 180-187). -/
def checkActive (st : P1State) (u : String) : Resp :=
  match alookup st.clients u with
  | some r =>
    if r.isReady then Resp.okMsg "Session already active"
    else Resp.errMsg 200 "Session is not active"
  | none => Resp.errMsg 200 "Session is not active"

end WaP1

namespace WaGateway

/-! ### Helper lemmas about the registry representation -/

theorem alookup_aset_self {α : Type} (cs : List (String × α)) (u : String) (r : α) :
    alookup (aset cs u r) u = some r := by
  induction cs with
  | nil => simp [aset, alookup]
  | cons kv t ih =>
    obtain ⟨k, w⟩ := kv
    by_cases h : k = u
    · simp [aset, h, alookup]
    · simp [aset, h, alookup, ih]

theorem alookup_aset_other {α : Type} (cs : List (String × α)) (u v : String) (r : α)
    (h : v ≠ u) : alookup (aset cs u r) v = alookup cs v := by
  have hne : ¬(u = v) := fun hh => h hh.symm
  induction cs with
  | nil => simp [aset, alookup, hne]
  | cons kv t ih =>
    obtain ⟨k, w⟩ := kv
    by_cases hk : k = u
    · subst hk
      simp [aset, alookup, hne]
    · by_cases hv : k = v
      · simp [aset, hk, alookup, hv, h]
      · simp [aset, hk, alookup, hv, ih]

theorem mem_keys_aset {α : Type} (cs : List (String × α)) (u x : String) (r : α) :
    x ∈ (aset cs u r).map Prod.fst → x ∈ cs.map Prod.fst ∨ x = u := by
  induction cs with
  | nil =>
    intro h
    simp only [aset, List.map_cons, List.map_nil, List.mem_singleton] at h
    exact Or.inr h
  | cons kv t ih =>
    obtain ⟨k, w⟩ := kv
    intro h
    by_cases hk : k = u
    · subst hk
      simp only [aset, eq_self_iff_true, if_true, List.map_cons, List.mem_cons] at h
      rcases h with h | h
      · exact Or.inr h
      · exact Or.inl (List.mem_cons_of_mem _ h)
    · simp only [aset, if_neg hk, List.map_cons, List.mem_cons] at h
      rcases h with h | h
      · exact Or.inl (by simp [h])
      · rcases ih h with h2 | h2
        · exact Or.inl (List.mem_cons_of_mem _ h2)
        · exact Or.inr h2

theorem nodup_aset {α : Type} (cs : List (String × α)) (u : String) (r : α) :
    (cs.map Prod.fst).Nodup → ((aset cs u r).map Prod.fst).Nodup := by
  induction cs with
  | nil =>
    intro _
    simp [aset]
  | cons kv t ih =>
    obtain ⟨k, w⟩ := kv
    intro h
    simp only [List.map_cons, List.nodup_cons] at h
    by_cases hk : k = u
    · subst hk
      simp only [aset, eq_self_iff_true, if_true, List.map_cons, List.nodup_cons]
      exact h
    · simp only [aset, if_neg hk, List.map_cons, List.nodup_cons]
      refine ⟨fun hm => ?_, ih h.2⟩
      rcases mem_keys_aset t u k r hm with h2 | h2
      · exact h.1 h2
      · exact hk h2

theorem mem_keys_aerase {α : Type} (cs : List (String × α)) (u x : String) :
    x ∈ (aerase cs u).map Prod.fst → x ∈ cs.map Prod.fst := by
  induction cs with
  | nil =>
    intro h
    simp [aerase] at h
  | cons kv t ih =>
    obtain ⟨k, w⟩ := kv
    intro h
    by_cases hk : k = u
    · subst hk
      simp only [aerase, eq_self_iff_true, if_true] at h
      exact List.mem_cons_of_mem _ h
    · simp only [aerase, if_neg hk, List.map_cons, List.mem_cons] at h
      rcases h with h | h
      · simp [h]
      · exact List.mem_cons_of_mem _ (ih h)

theorem nodup_aerase {α : Type} (cs : List (String × α)) (u : String) :
    (cs.map Prod.fst).Nodup → ((aerase cs u).map Prod.fst).Nodup := by
  induction cs with
  | nil =>
    intro _
    simp [aerase]
  | cons kv t ih =>
    obtain ⟨k, w⟩ := kv
    intro h
    simp only [List.map_cons, List.nodup_cons] at h
    by_cases hk : k = u
    · subst hk
      simpa [aerase] using h.2
    · simp only [aerase, if_neg hk, List.map_cons, List.nodup_cons]
      exact ⟨fun hm => h.1 (mem_keys_aerase t u k hm), ih h.2⟩

theorem alookup_eq_none_of_not_mem {α : Type} (cs : List (String × α)) (u : String) :
    u ∉ cs.map Prod.fst → alookup cs u = none := by
  induction cs with
  | nil =>
    intro _
    simp [alookup]
  | cons kv t ih =>
    obtain ⟨k, w⟩ := kv
    intro h
    simp only [List.map_cons, List.mem_cons] at h
    push_neg at h
    have hne : ¬(k = u) := fun hh => h.1 hh.symm
    simp only [alookup, if_neg hne]
    exact ih h.2

theorem alookup_aerase_self {α : Type} (cs : List (String × α)) (u : String) :
    (cs.map Prod.fst).Nodup → alookup (aerase cs u) u = none := by
  induction cs with
  | nil =>
    intro _
    simp [aerase, alookup]
  | cons kv t ih =>
    obtain ⟨k, w⟩ := kv
    intro h
    simp only [List.map_cons, List.nodup_cons] at h
    by_cases hk : k = u
    · subst hk
      simp only [aerase, eq_self_iff_true, if_true]
      exact alookup_eq_none_of_not_mem t k h.1
    · simp [aerase, hk, alookup, ih h.2]

theorem all_aset {α : Type} (q : α → Bool) (cs : List (String × α)) (u : String) (r : α) :
    cs.all (fun p => q p.2) = true → q r = true →
    (aset cs u r).all (fun p => q p.2) = true := by
  induction cs with
  | nil =>
    intro _ hr
    simp [aset, hr]
  | cons kv t ih =>
    obtain ⟨k, w⟩ := kv
    intro h hr
    simp only [List.all_cons, Bool.and_eq_true] at h
    by_cases hk : k = u
    · subst hk
      simp [aset, List.all_cons, hr, h.2]
    · simp only [aset, if_neg hk, List.all_cons, Bool.and_eq_true]
      exact ⟨h.1, ih h.2 hr⟩

theorem all_aerase {α : Type} (q : α → Bool) (cs : List (String × α)) (u : String) :
    cs.all (fun p => q p.2) = true → (aerase cs u).all (fun p => q p.2) = true := by
  induction cs with
  | nil =>
    intro _
    simp [aerase]
  | cons kv t ih =>
    obtain ⟨k, w⟩ := kv
    intro h
    simp only [List.all_cons, Bool.and_eq_true] at h
    by_cases hk : k = u
    · simpa [aerase, hk] using h.2
    · simp only [aerase, if_neg hk, List.all_cons, Bool.and_eq_true]
      exact ⟨h.1, ih h.2⟩

theorem alookup_all {α : Type} (q : α → Bool) (cs : List (String × α)) (u : String)
    (r : α) : cs.all (fun p => q p.2) = true → alookup cs u = some r → q r = true := by
  induction cs with
  | nil =>
    intro _ hl
    simp [alookup] at hl
  | cons kv t ih =>
    obtain ⟨k, w⟩ := kv
    intro h hl
    simp only [List.all_cons, Bool.and_eq_true] at h
    by_cases hk : k = u
    · simp only [alookup, if_pos hk] at hl
      cases hl
      exact h.1
    · simp only [alookup, if_neg hk] at hl
      exact ih h.2 hl

/-! ### The destination format check -/

/-- The first character class of the route's regular expression, phrased
as claim C4 phrases it: a digit with a non-zero value is exactly a
character in `'1'..'9'`. -/
theorem headDigit_iff (c : Char) :
    ('1' ≤ c ∧ c ≤ '9') ↔ (('0' ≤ c ∧ c ≤ '9') ∧ ¬(c = '0')) := by
  have h48 : ('0' : Char).val.toBitVec.toNat = 48 := rfl
  have h49 : ('1' : Char).val.toBitVec.toNat = 49 := rfl
  have h57 : ('9' : Char).val.toBitVec.toNat = 57 := rfl
  have h48n : ('0' : Char).val.toNat = 48 := rfl
  have hsame : ∀ u : UInt32, u.toNat = u.toBitVec.toNat := fun _ => rfl
  simp only [Char.le_def, UInt32.le_def, BitVec.le_def, Char.ext_iff, UInt32.ext_iff,
    BitVec.toNat_eq, h48, h49, h57, h48n, hsame]
  omega

/-- The canonical destination format in the words of claim C4: the
string consists solely of digits, has length 11 to 15, and its first
digit is not zero. -/
def specValidDest (s : String) : Prop :=
  s.data.all Char.isDigit = true ∧ 11 ≤ s.length ∧ s.length ≤ 15 ∧
    s.data.head? ≠ some '0'

instance (s : String) : Decidable (specValidDest s) := by
  unfold specValidDest
  infer_instance

/-- The route's regular expression test agrees with the claim's
characterization of the canonical destination format. -/
theorem validPhoneNumber_iff (s : String) :
    validPhoneNumber s = true ↔ specValidDest s := by
  unfold validPhoneNumber specValidDest
  cases hd : s.data with
  | nil =>
    have hl : s.length = 0 := by
      rw [show s.length = s.data.length from rfl, hd]
      rfl
    simp [hl]
  | cons c rest =>
    have hl : s.length = rest.length + 1 := by
      rw [show s.length = s.data.length from rfl, hd]
      rfl
    have hdig : ∀ d : Char, (('0' ≤ d && d ≤ '9') = d.isDigit) := fun _ => rfl
    simp only [hl, List.all_cons, List.head?_cons, Bool.and_eq_true, decide_eq_true_eq,
      Option.some.injEq, hdig, ne_eq]
    constructor
    · intro h
      obtain ⟨⟨hA, hlo, hhi⟩, hall⟩ := h
      rcases (headDigit_iff c).1 hA with ⟨⟨hc0, hc9b⟩, hnz⟩
      refine ⟨⟨?_, hall⟩, by omega, by omega, hnz⟩
      rw [show c.isDigit = ('0' ≤ c && c ≤ '9') from rfl]
      simp [hc0, hc9b]
    · intro h
      obtain ⟨⟨hcd, hall⟩, hlo, hhi, hnz⟩ := h
      have hc : ('0' ≤ c ∧ c ≤ '9') := by
        rw [show c.isDigit = ('0' ≤ c && c ≤ '9') from rfl] at hcd
        simpa using hcd
      exact ⟨⟨(headDigit_iff c).2 ⟨hc, hnz⟩, by omega, by omega⟩, hall⟩

/-! ### Claim C10: requests with a bad secret header -/

/-- C10: for every HTTP request to any endpoint, if the request's
`secret` header is absent or differs from the configured
`WHATSAPP_INTERNAL_SECRET_KEY` value, the server responds 401 with the
structured error body, the registry is unchanged, and no client,
storage or message action is performed. -/
theorem C10_theorem (st : ServerState) (e : String) (req : Request)
    (h : req.secretHeader = none ∨ req.secretHeader ≠ some e) :
    handleRequest st (some e) req
      = (st, [], some (Resp.errMsg 401 "Unauthorized: Invalid secret header")) := by
  have hfalse : checkSecretB req.secretHeader (some e) = false := by
    rcases h with h | h
    · rw [h]
      rfl
    · cases hh : req.secretHeader with
      | none => rfl
      | some v =>
        have hs : ¬(v = e) := fun hq => h (by rw [hh, hq])
        simp [checkSecretB, hs]
  unfold handleRequest
  rw [hfalse]
  simp

/-- Witness for C10 at a concrete request: a wrong header on a
status query is answered 401 and the state survives untouched. -/
theorem C10_witness :
    handleRequest ⟨[("u", ⟨0, true, none, none⟩)], 1⟩ (some "sek")
        ⟨some "wrong", Op.checkActive "u"⟩
      = (⟨[("u", ⟨0, true, none, none⟩)], 1⟩, [],
          some (Resp.errMsg 401 "Unauthorized: Invalid secret header")) :=
  C10_theorem _ "sek" _ (Or.inr (by decide))

/-! ### Claim C4: the single-send route -/

/-- C4: for every tenant and single-send request, the route answers
`SessionNotReady` (the 400 not-ready body) when the registry has no
ready record; otherwise rejects a destination that is not solely
digits of length 11 to 15 with a non-zero first digit (the format
check of the route's regular expression agrees with that
characterization, first conjunct); otherwise forwards to the client's
send operation and returns its result, a thrown failure being handed
to the error layer together with its underlying cause. -/
theorem C4_theorem :
    (∀ s, validPhoneNumber s = true ↔ specValidDest s)
    ∧ (∀ st u phone msg oracle, alookup st.clients u = none →
        sendMessageRoute st u phone msg oracle
          = (st, [], RouteOut.resp
              (Resp.errMsg 400 "User session is not ready or is inactive")))
    ∧ (∀ st u phone msg oracle r, alookup st.clients u = some r →
        r.isReady = false →
        sendMessageRoute st u phone msg oracle
          = (st, [], RouteOut.resp
              (Resp.errMsg 400 "User session is not ready or is inactive")))
    ∧ (∀ st u phone msg oracle r, alookup st.clients u = some r →
        r.isReady = true → ¬ specValidDest phone →
        sendMessageRoute st u phone msg oracle
          = (st, [], RouteOut.resp
              (Resp.errMsg 400 ("Invalid phone number format: " ++ phone))))
    ∧ (∀ st u phone msg n r, alookup st.clients u = some r →
        r.isReady = true → specValidDest phone →
        sendMessageRoute st u phone msg (some (SendOutcome.ok n))
          = (st, [Action.clientSend r.clientId (phone ++ "@c.us") msg],
              RouteOut.resp (Resp.sendOk n)))
    ∧ (∀ st u phone msg m nm sk r, alookup st.clients u = some r →
        r.isReady = true → specValidDest phone →
        sendMessageRoute st u phone msg (some (SendOutcome.thrown m nm sk))
          = (st, [Action.clientSend r.clientId (phone ++ "@c.us") msg],
              RouteOut.nextErr m nm sk)
          ∧ errorMiddleware (RouteOut.nextErr m nm sk)
              = some (Resp.errMsg 500 "An unexpected error occurred.")) := by
  refine ⟨validPhoneNumber_iff, ?_, ?_, ?_, ?_, ?_⟩
  · intro st u phone msg oracle h
    simp [sendMessageRoute, h]
  · intro st u phone msg oracle r h hr
    simp [sendMessageRoute, h, hr]
  · intro st u phone msg oracle r h hr hv
    have hb : validPhoneNumber phone = false := by
      rcases Bool.eq_false_or_eq_true (validPhoneNumber phone) with hb | hb
      · exact absurd ((validPhoneNumber_iff phone).1 hb) hv
      · exact hb
    simp [sendMessageRoute, h, hr, hb]
  · intro st u phone msg n r h hr hv
    have hb : validPhoneNumber phone = true := (validPhoneNumber_iff phone).2 hv
    simp [sendMessageRoute, h, hr, hb]
  · intro st u phone msg m nm sk r h hr hv
    have hb : validPhoneNumber phone = true := (validPhoneNumber_iff phone).2 hv
    exact ⟨by simp [sendMessageRoute, h, hr, hb], rfl⟩

/-- Witness for C4 at concrete inputs: a valid destination on a ready
session is forwarded and answered with the client's response, and the
same destination is accepted by the claim's characterization. -/
theorem C4_witness :
    specValidDest "15551230000"
    ∧ sendMessageRoute ⟨[("u", ⟨2, true, none, none⟩)], 3⟩ "u" "15551230000" "hi"
        (some (SendOutcome.ok 1))
      = (⟨[("u", ⟨2, true, none, none⟩)], 3⟩,
          [Action.clientSend 2 "15551230000@c.us" "hi"],
          RouteOut.resp (Resp.sendOk 1)) :=
  ⟨by decide,
    C4_theorem.2.2.2.2.1 _ "u" "15551230000" "hi" 1 ⟨2, true, none, none⟩
      (by decide) rfl (by decide)⟩

/-! ### Claim C1: the bulk route -/

/-- C1 (amended): on a Ready session, `sendBulk` attempts every item
independently and reports each item's outcome exactly once — a success
entry when the client's send resolves, otherwise an error entry
carrying the client's cause — and a failing item does not abort the
batch; the route performs no destination-format validation of its own. -/
theorem C1_theorem (st : ServerState) (u : String) (items : List (String × String))
    (oracle : String → String → SendOutcome) (r : SessionRec)
    (h : alookup st.clients u = some r) (hr : r.isReady = true) :
    sendBulkRoute st u items oracle
      = (st, items.map (fun it => Action.clientSend r.clientId (it.1 ++ "@c.us") it.2),
          RouteOut.resp (Resp.bulk
            (items.map (fun it => (it.1, bulkEntryOf (oracle it.1 it.2)))))) := by
  simp [sendBulkRoute, h, hr]

/-- Counterexample for C1 as stated: on a Ready session, the bulk route
never classifies a destination as invalid.  With the claim's item map,
a client that accepts everything yields a success entry for
`notanumber` (not an `InvalidDestination` entry), and a client that
rejects it yields an entry carrying the client's own cause and name —
no validation category exists in the route. -/
theorem C1_counterexample :
    sendBulkRoute ⟨[("u", ⟨2, true, none, none⟩)], 3⟩ "u"
        [("15551230000", "hi"), ("notanumber", "hi")] (fun _ _ => SendOutcome.ok 7)
      = (⟨[("u", ⟨2, true, none, none⟩)], 3⟩,
          [Action.clientSend 2 "15551230000@c.us" "hi",
            Action.clientSend 2 "notanumber@c.us" "hi"],
          RouteOut.resp (Resp.bulk
            [("15551230000", BulkEntry.ok 7), ("notanumber", BulkEntry.ok 7)]))
    ∧ sendBulkRoute ⟨[("u", ⟨2, true, none, none⟩)], 3⟩ "u"
        [("15551230000", "hi"), ("notanumber", "hi")]
        (fun p _ => if p = "15551230000" then SendOutcome.ok 7
          else SendOutcome.thrown "Evaluation failed" "Error" "")
      = (⟨[("u", ⟨2, true, none, none⟩)], 3⟩,
          [Action.clientSend 2 "15551230000@c.us" "hi",
            Action.clientSend 2 "notanumber@c.us" "hi"],
          RouteOut.resp (Resp.bulk
            [("15551230000", BulkEntry.ok 7),
              ("notanumber", BulkEntry.fail "Evaluation failed" "Error"
                "No stack trace available")])) := by
  exact ⟨by decide, by decide⟩

/-- Witness for C1 at the claim's concrete item map with a client that
accepts the first destination and rejects the second: both outcomes
are reported, the batch is not aborted. -/
theorem C1_witness :
    sendBulkRoute ⟨[("t", ⟨4, true, none, none⟩)], 5⟩ "t"
        [("15551230000", "hi"), ("notanumber", "hi")]
        (fun p _ => if p = "notanumber" then SendOutcome.thrown "boom" "Error" "tr"
          else SendOutcome.ok 1)
      = (⟨[("t", ⟨4, true, none, none⟩)], 5⟩,
          [Action.clientSend 4 "15551230000@c.us" "hi",
            Action.clientSend 4 "notanumber@c.us" "hi"],
          RouteOut.resp (Resp.bulk
            [("15551230000", BulkEntry.ok 1),
              ("notanumber", BulkEntry.fail "boom" "Error" "tr")])) :=
  (C1_theorem _ "t" _ _ ⟨4, true, none, none⟩ (by decide) rfl).trans (by decide)

/-! ### Claim C2: a second get-QR during pending generation -/

/-- C2 (amended): a get-QR request that finds the tenant's record not
ready and without a valid cached payload (the code's cache condition
false) destroys the record's pending client and constructs and starts
exactly one replacement client; only a request that finds a fresh
cached payload is served from the cache without touching any client. -/
theorem C2_theorem :
    (∀ st u now r, alookup st.clients u = some r → r.isReady = false →
      (qrTruthy r.qrCode && decide (now - jsNum r.qrGeneratedAt < 20000)) = false →
      getQr st u now = ((initializeClient st u).1, (initializeClient st u).2, none)
        ∧ (initializeClient st u).2
            = [Action.destroyClient r.clientId, Action.newClient st.nextClientId])
    ∧ (∀ st u now r q, alookup st.clients u = some r → r.isReady = false →
      r.qrCode = some q → q ≠ "" → now - jsNum r.qrGeneratedAt < 20000 →
      getQr st u now = (st, [], some (Resp.qr q))) := by
  constructor
  · intro st u now r h hr hc
    constructor
    · simp [getQr, h, hr, hc]
    · simp [initializeClient, h]
  · intro st u now r q h hr hq hne hlt
    simp [getQr, h, hr, hq, qrTruthy, hne, hlt]

/-- Counterexample for C2 as stated: after a first get-QR installed
client 3 and while its generation is still pending (record present, not
ready, no payload yet), a further get-QR for the same tenant constructs
and starts a second automated client (client 4) instead of receiving
the in-flight result or a not-yet-ready response. -/
theorem C2_counterexample :
    initializeClient ⟨[], 3⟩ "u"
      = (⟨[("u", ⟨3, false, none, none⟩)], 4⟩, [Action.newClient 3])
    ∧ getQr ⟨[("u", ⟨3, false, none, none⟩)], 4⟩ "u" 100
      = (⟨[("u", ⟨4, false, none, none⟩)], 5⟩,
          [Action.destroyClient 3, Action.newClient 4], none) := by
  exact ⟨by decide, by decide⟩

/-- Witness for C2 at concrete inputs: a pending record without a
payload is replaced (old client destroyed, one new client started), and
a record with a fresh cached payload is served from the cache. -/
theorem C2_witness :
    getQr ⟨[("u", ⟨3, false, none, none⟩)], 4⟩ "u" 100
      = ((initializeClient ⟨[("u", ⟨3, false, none, none⟩)], 4⟩ "u").1,
          (initializeClient ⟨[("u", ⟨3, false, none, none⟩)], 4⟩ "u").2, none)
    ∧ (initializeClient ⟨[("u", ⟨3, false, none, none⟩)], 4⟩ "u").2
        = [Action.destroyClient 3, Action.newClient 4]
    ∧ getQr ⟨[("v", ⟨9, false, some "P", some 50⟩)], 10⟩ "v" 60
        = (⟨[("v", ⟨9, false, some "P", some 50⟩)], 10⟩, [], some (Resp.qr "P")) := by
  refine ⟨(C2_theorem.1 _ "u" 100 ⟨3, false, none, none⟩ (by decide) rfl (by decide)).1,
    (C2_theorem.1 _ "u" 100 ⟨3, false, none, none⟩ (by decide) rfl (by decide)).2, ?_⟩
  exact C2_theorem.2 _ "v" 60 ⟨9, false, some "P", some 50⟩ "P"
    (by decide) rfl rfl (by decide) (by decide)

/-! ### Claim C5: the QR cache -/

/-- C5 (amended): two QR requests each issued within 20 000 ms of the
cached payload's generation time, on a not-Ready session, return the
identical cached payload and neither invokes the generator (no state
change, no client constructed). -/
theorem C5_theorem (st : ServerState) (u q : String) (r : SessionRec)
    (tg n1 n2 : Nat) (h : alookup st.clients u = some r) (hr : r.isReady = false)
    (hq : r.qrCode = some q) (hne : q ≠ "") (hg : r.qrGeneratedAt = some tg)
    (h1 : n1 - tg < 20000) (h2 : n2 - tg < 20000) :
    getQr st u n1 = (st, [], some (Resp.qr q))
    ∧ getQr st u n2 = (st, [], some (Resp.qr q)) := by
  constructor
  · simp [getQr, h, hr, hq, hg, qrTruthy, jsNum, hne, h1]
  · simp [getQr, h, hr, hq, hg, qrTruthy, jsNum, hne, h2]

/-- Counterexample for C5 as stated: requests 1 ms apart (less than the
TTL apart) on a not-Ready session need not behave alike — with a
payload cached at time 0, a request at 19999 is served from the cache
but a request at 20000 invokes the generator (destroys the old client,
constructs client 6) and returns no cached payload. -/
theorem C5_counterexample :
    getQr ⟨[("u", ⟨5, false, some "QR1", some 0⟩)], 6⟩ "u" 19999
      = (⟨[("u", ⟨5, false, some "QR1", some 0⟩)], 6⟩, [], some (Resp.qr "QR1"))
    ∧ getQr ⟨[("u", ⟨5, false, some "QR1", some 0⟩)], 6⟩ "u" 20000
      = (⟨[("u", ⟨6, false, none, none⟩)], 7⟩,
          [Action.destroyClient 5, Action.newClient 6], none) := by
  exact ⟨by decide, by decide⟩

/-- Witness for C5 at concrete inputs: a payload cached at time 1000 is
served identically at 1500 and at 2500 without any action. -/
theorem C5_witness :
    getQr ⟨[("u", ⟨5, false, some "P", some 1000⟩)], 6⟩ "u" 1500
      = (⟨[("u", ⟨5, false, some "P", some 1000⟩)], 6⟩, [], some (Resp.qr "P"))
    ∧ getQr ⟨[("u", ⟨5, false, some "P", some 1000⟩)], 6⟩ "u" 2500
      = (⟨[("u", ⟨5, false, some "P", some 1000⟩)], 6⟩, [], some (Resp.qr "P")) :=
  C5_theorem _ "u" "P" ⟨5, false, some "P", some 1000⟩ 1000 1500 2500
    (by decide) rfl rfl (by decide) rfl (by decide) (by decide)

/-! ### State-shape lemmas for the routes -/

theorem getQr_state (st : ServerState) (u : String) (now : Nat) :
    (getQr st u now).1 = st ∨ (getQr st u now).1 = (initializeClient st u).1 := by
  unfold getQr
  split
  · split
    · left; rfl
    · split
      · left; rfl
      · right; rfl
  · right; rfl

theorem sendMessageRoute_state (st : ServerState) (u phone msg : String)
    (oracle : Option SendOutcome) : (sendMessageRoute st u phone msg oracle).1 = st := by
  unfold sendMessageRoute
  split
  · rfl
  · split
    · rfl
    · split
      · rfl
      · rfl

theorem sendBulkRoute_state (st : ServerState) (u : String)
    (items : List (String × String)) (oracle : String → String → SendOutcome) :
    (sendBulkRoute st u items oracle).1 = st := by
  unfold sendBulkRoute
  split
  · rfl
  · split <;> rfl

theorem logoutRoute_state (st : ServerState) (u : String) :
    (logoutRoute st u).1 = st := by
  unfold logoutRoute
  split <;> rfl

theorem nodup_initializeClient (st : ServerState) (u : String)
    (h : (st.clients.map Prod.fst).Nodup) :
    ((initializeClient st u).1.clients.map Prod.fst).Nodup := by
  unfold initializeClient
  cases hl : alookup st.clients u with
  | none =>
    simp only [hl]
    exact nodup_aset _ _ _ h
  | some r =>
    simp only [hl]
    exact nodup_aset _ _ _ (nodup_aerase _ _ h)

theorem invB_initializeClient (st : ServerState) (u : String)
    (h : invB st = true) : invB (initializeClient st u).1 = true := by
  unfold initializeClient invB
  cases hl : alookup st.clients u with
  | none =>
    simp only [hl]
    exact all_aset _ _ _ _ h rfl
  | some r =>
    simp only [hl]
    exact all_aset _ _ _ _ (all_aerase _ _ _ h) rfl

/-! ### Claim C3: registry uniqueness and destroy-before-replace -/

/-- C3 (amended): the registry keeps at most one record per tenant at
every instant (every operation of the node.js server, and the first
document's get-qr variant, preserves duplicate-freeness of the
registry's keys), and the node.js `initializeClient` path destroys the
pre-existing record's client before constructing the replacement; the
first document's get-qr handler, by contrast, overwrites the record
without destroying the old client. -/
theorem C3_theorem :
    (∀ st op, (st.clients.map Prod.fst).Nodup →
      (((applyOp st op).1).clients.map Prod.fst).Nodup)
    ∧ (∀ st u, (st.clients.map Prod.fst).Nodup →
      (((WaV1.getQr st u).1).clients.map Prod.fst).Nodup)
    ∧ (∀ st u r, alookup st.clients u = some r →
      (initializeClient st u).2
        = [Action.destroyClient r.clientId, Action.newClient st.nextClientId]) := by
  refine ⟨?_, ?_, ?_⟩
  · intro st op h
    cases op with
    | getQr u now =>
      rcases getQr_state st u now with hs | hs
      · rw [show (applyOp st (Op.getQr u now)).1 = (getQr st u now).1 from rfl, hs]
        exact h
      · rw [show (applyOp st (Op.getQr u now)).1 = (getQr st u now).1 from rfl, hs]
        exact nodup_initializeClient st u h
    | qrEv u url t =>
      show (((qrEvent st u url t).clients).map Prod.fst).Nodup
      unfold qrEvent
      cases hl : alookup st.clients u with
      | none => exact h
      | some r => exact nodup_aset _ _ _ h
    | ready u =>
      show (((readyEvent st u).clients).map Prod.fst).Nodup
      unfold readyEvent
      cases hl : alookup st.clients u with
      | none => exact h
      | some r => exact nodup_aset _ _ _ h
    | authFailure u =>
      show (((authFailureEvent st u).clients).map Prod.fst).Nodup
      unfold authFailureEvent
      cases hl : alookup st.clients u with
      | none => exact h
      | some r => exact nodup_aerase _ _ (nodup_aset _ _ _ h)
    | disconnected u =>
      show ((((disconnectedEvent st u).1).clients).map Prod.fst).Nodup
      unfold disconnectedEvent
      cases hl : alookup st.clients u with
      | none => exact h
      | some r => exact nodup_aerase _ _ (nodup_aset _ _ _ h)
    | logout u =>
      rw [show (applyOp st (Op.logout u)).1 = (logoutRoute st u).1 from rfl,
        logoutRoute_state]
      exact h
    | sendMsg u phone msg oracle =>
      rw [show (applyOp st (Op.sendMsg u phone msg oracle)).1
          = (sendMessageRoute st u phone msg oracle).1 from rfl,
        sendMessageRoute_state]
      exact h
    | sendBulk u items oracle =>
      rw [show (applyOp st (Op.sendBulk u items oracle)).1
          = (sendBulkRoute st u items oracle).1 from rfl,
        sendBulkRoute_state]
      exact h
    | checkActive u => exact h
  · intro st u h
    unfold WaV1.getQr WaV1.newSession
    cases hl : alookup st.clients u with
    | none => exact nodup_aset _ _ _ h
    | some r =>
      cases hr : r.isReady with
      | true => simp only [hr, if_true]; exact h
      | false => simp only [hr]; exact nodup_aset _ _ _ h
  · intro st u r h
    simp [initializeClient, h]

/-- Counterexample for C3 as stated: the first document's get-qr
handler (node.js lines 42-75), on a tenant that already has a record
owning client 7, performs a session-creation (constructs and starts
client 8, installs the replacement record) without destroying client 7
first: its action trace holds no destruction at all. -/
theorem C3_counterexample :
    WaV1.getQr ⟨[("u", ⟨7, false, none, none⟩)], 8⟩ "u"
      = (⟨[("u", ⟨8, false, none, none⟩)], 9⟩, [Action.newClient 8], none)
    ∧ Action.destroyClient 7 ∉ [Action.newClient 8] := by
  exact ⟨by decide, by decide⟩

/-- Witness for C3 at concrete inputs: a ready-session logout request
preserves key-uniqueness, the first document's get-qr preserves it too,
and the node.js initializeClient emits the destruction of the old
client before the construction of the new one. -/
theorem C3_witness :
    ((((applyOp ⟨[("u", ⟨1, false, none, none⟩), ("v", ⟨2, true, none, none⟩)], 3⟩
        (Op.getQr "u" 50)).1).clients).map Prod.fst).Nodup
    ∧ ((((WaV1.getQr ⟨[("u", ⟨1, false, none, none⟩)], 2⟩ "u").1).clients).map
        Prod.fst).Nodup
    ∧ (initializeClient ⟨[("u", ⟨1, false, none, none⟩)], 2⟩ "u").2
        = [Action.destroyClient 1, Action.newClient 2] :=
  ⟨C3_theorem.1 _ (Op.getQr "u" 50) (by decide),
    C3_theorem.2.1 _ "u" (by decide),
    C3_theorem.2.2 _ "u" ⟨1, false, none, none⟩ (by decide)⟩

/-! ### Claim C7: the cached QR code is cleared outside the pending states -/

/-- C7 (amended): in the node.js server (second document), under every
operation — with the external-client contract that a pairing-code
event only fires for a not-ready record — the invariant "a ready
record holds no cached QR code and no timestamp" is preserved; its
ready transition clears the cached payload and timestamp, and its
auth-failure and disconnect transitions remove the record altogether,
so there the cached payload is non-null only while the session is
still pending (Initializing or AwaitingScan).  In the part_000
variant, by contrast, the ready handler sets the ready flag and keeps
the cached payload and timestamp unchanged (last conjunct), so a Ready
record retains its cached QR code there. -/
theorem C7_theorem :
    (∀ st op, invB st = true → opOkB st op = true →
      invB ((applyOp st op).1) = true)
    ∧ (∀ st u r, alookup st.clients u = some r →
      alookup ((readyEvent st u).clients) u = some ⟨r.clientId, true, none, none⟩)
    ∧ (∀ st u, (st.clients.map Prod.fst).Nodup →
      alookup ((authFailureEvent st u).clients) u = none)
    ∧ (∀ st u, (st.clients.map Prod.fst).Nodup →
      alookup (((disconnectedEvent st u).1).clients) u = none)
    ∧ (∀ st u r, alookup st.clients u = some r →
      alookup (((WaP0.readyEvent st u).1).clients) u
        = some ⟨r.clientId, true, r.qrCode, r.qrGeneratedAt⟩) := by
  refine ⟨?_, ?_, ?_, ?_, ?_⟩
  · intro st op h hok
    cases op with
    | getQr u now =>
      rcases getQr_state st u now with hs | hs
      · rw [show (applyOp st (Op.getQr u now)).1 = (getQr st u now).1 from rfl, hs]
        exact h
      · rw [show (applyOp st (Op.getQr u now)).1 = (getQr st u now).1 from rfl, hs]
        exact invB_initializeClient st u h
    | qrEv u url t =>
      show invB (qrEvent st u url t) = true
      unfold qrEvent
      cases hl : alookup st.clients u with
      | none => exact h
      | some r =>
        have hrr : r.isReady = false := by
          have := hok
          simp only [opOkB, hl, Bool.not_eq_true'] at this
          exact this
        refine all_aset _ _ _ _ h ?_
        simp [recOk, hrr]
    | ready u =>
      show invB (readyEvent st u) = true
      unfold readyEvent
      cases hl : alookup st.clients u with
      | none => exact h
      | some r => exact all_aset _ _ _ _ h rfl
    | authFailure u =>
      show invB (authFailureEvent st u) = true
      unfold authFailureEvent
      cases hl : alookup st.clients u with
      | none => exact h
      | some r => exact all_aerase _ _ _ (all_aset _ _ _ _ h rfl)
    | disconnected u =>
      show invB ((disconnectedEvent st u).1) = true
      unfold disconnectedEvent
      cases hl : alookup st.clients u with
      | none => exact h
      | some r => exact all_aerase _ _ _ (all_aset _ _ _ _ h rfl)
    | logout u =>
      rw [show (applyOp st (Op.logout u)).1 = (logoutRoute st u).1 from rfl,
        logoutRoute_state]
      exact h
    | sendMsg u phone msg oracle =>
      rw [show (applyOp st (Op.sendMsg u phone msg oracle)).1
          = (sendMessageRoute st u phone msg oracle).1 from rfl,
        sendMessageRoute_state]
      exact h
    | sendBulk u items oracle =>
      rw [show (applyOp st (Op.sendBulk u items oracle)).1
          = (sendBulkRoute st u items oracle).1 from rfl,
        sendBulkRoute_state]
      exact h
    | checkActive u => exact h
  · intro st u r hl
    unfold readyEvent
    simp only [hl]
    exact alookup_aset_self _ _ _
  · intro st u h
    unfold authFailureEvent
    cases hl : alookup st.clients u with
    | none => exact hl
    | some r => exact alookup_aerase_self _ _ (nodup_aset _ _ _ h)
  · intro st u h
    unfold disconnectedEvent
    cases hl : alookup st.clients u with
    | none => exact hl
    | some r => exact alookup_aerase_self _ _ (nodup_aset _ _ _ h)
  · intro st u r hl
    unfold WaP0.readyEvent
    simp only [hl]
    exact alookup_aset_self _ _ _

/-- Counterexample for C7 as stated: in the cited part_000 variant, a
pending record that cached payload "P" via the qr handler and then
receives the ready event keeps its cached `qrCode` and
`qrGeneratedAt` while Ready — the transition into Ready does not clear
them, and the invariant "qrCode is non-null only while the state is
Initializing or AwaitingScan" fails on the resulting state. -/
theorem C7_counterexample :
    WaP0.qrEvent ⟨[("u", ⟨1, false, none, none⟩)], 2⟩ "u" "P" 50
      = ⟨[("u", ⟨1, false, some "P", some 50⟩)], 2⟩
    ∧ WaP0.readyEvent ⟨[("u", ⟨1, false, some "P", some 50⟩)], 2⟩ "u"
      = (⟨[("u", ⟨1, true, some "P", some 50⟩)], 2⟩,
          [Action.s3PutDir "./wwebjs_auth/session-u/"])
    ∧ invB ⟨[("u", ⟨1, true, some "P", some 50⟩)], 2⟩ = false := by
  exact ⟨by decide, by decide, by decide⟩

/-- Witness for C7 at concrete inputs: in the node.js variant the
pending record's cached payload survives a qr event only while not
ready, the ready transition clears it, and auth failure and disconnect
remove the record; in the part_000 variant the ready transition keeps
the cached payload in place. -/
theorem C7_witness :
    invB ((applyOp ⟨[("u", ⟨1, false, some "P", some 5⟩)], 2⟩ (Op.ready "u")).1) = true
    ∧ alookup ((readyEvent ⟨[("u", ⟨1, false, some "P", some 5⟩)], 2⟩ "u").clients) "u"
        = some ⟨1, true, none, none⟩
    ∧ alookup ((authFailureEvent ⟨[("u", ⟨1, false, some "P", some 5⟩)], 2⟩ "u").clients)
        "u" = none
    ∧ alookup (((disconnectedEvent ⟨[("u", ⟨1, false, some "P", some 5⟩)], 2⟩ "u").1).clients)
        "u" = none
    ∧ alookup (((WaP0.readyEvent ⟨[("v", ⟨3, false, some "Q", some 7⟩)], 4⟩ "v").1).clients)
        "v" = some ⟨3, true, some "Q", some 7⟩ :=
  ⟨C7_theorem.1 _ (Op.ready "u") (by decide) (by decide),
    C7_theorem.2.1 _ "u" ⟨1, false, some "P", some 5⟩ (by decide),
    C7_theorem.2.2.1 _ "u" (by decide),
    C7_theorem.2.2.2.1 _ "u" (by decide),
    C7_theorem.2.2.2.2 _ "v" ⟨3, false, some "Q", some 7⟩ (by decide)⟩

/-! ### Claim C6: the QR generation timeout -/

/-- C6 (amended): every QR-generation attempt is answered no later
than 15 000 ms after it starts, and when the client does not emit a
pairing payload within 15 000 ms the caller receives the 500 error
response exactly at the timeout.  (Message-send operations, by
contrast, impose no timeout: see the counterexample, where a send
whose underlying client operation never settles leaves the request
unanswered indefinitely.) -/
theorem C6_theorem (st : ServerState) (u : String) (t0 : Nat)
    (arrival : Option (Nat × String)) :
    (generateQRCode st u t0 arrival).2.1 ≤ t0 + 15000
    ∧ ((arrival = none ∨ ∃ d q, arrival = some (d, q) ∧ 15000 ≤ d) →
        generateQRCode st u t0 arrival
          = (st, t0 + 15000, Resp.errMsg 500 "Failed to generate QR code")) := by
  cases arrival with
  | none => exact ⟨Nat.le_refl _, fun _ => rfl⟩
  | some dq =>
    obtain ⟨d, q⟩ := dq
    by_cases hd : d < 15000
    · refine ⟨?_, ?_⟩
      · simp only [generateQRCode, if_pos hd]
        omega
      · intro hcon
        rcases hcon with hcon | ⟨d2, q2, heq, hge⟩
        · exact absurd hcon (by simp)
        · simp only [Option.some.injEq, Prod.mk.injEq] at heq
          obtain ⟨h1, h2⟩ := heq
          omega
    · refine ⟨?_, fun _ => ?_⟩ <;> simp only [generateQRCode, if_neg hd]
      exact Nat.le_refl _

/-- Counterexample for C6 as stated ("no caller-facing operation
leaves a request unanswered past that timeout"): a single-send on a
Ready session with a valid destination forwards to the client and
awaits it with no timer of any kind; if the client's send never
settles, the route never answers (no response at any time, in
particular none by 15 000 ms). -/
theorem C6_counterexample :
    sendMessageRoute ⟨[("u", ⟨2, true, none, none⟩)], 3⟩ "u" "15551230000" "hi" none
      = (⟨[("u", ⟨2, true, none, none⟩)], 3⟩,
          [Action.clientSend 2 "15551230000@c.us" "hi"], RouteOut.hang)
    ∧ errorMiddleware RouteOut.hang = none := by
  exact ⟨by decide, by decide⟩

/-- Witness for C6 at concrete inputs: a generation whose client never
emits a payload is answered with the 500 error exactly at the
timeout. -/
theorem C6_witness :
    (generateQRCode ⟨[("u", ⟨2, false, none, none⟩)], 3⟩ "u" 1000 none).2.1
        ≤ 1000 + 15000
    ∧ generateQRCode ⟨[("u", ⟨2, false, none, none⟩)], 3⟩ "u" 1000 none
        = (⟨[("u", ⟨2, false, none, none⟩)], 3⟩, 1000 + 15000,
            Resp.errMsg 500 "Failed to generate QR code") :=
  ⟨(C6_theorem _ "u" 1000 none).1, (C6_theorem _ "u" 1000 none).2 (Or.inl rfl)⟩

/-! ### Claim C8: logout and disconnect cleanup -/

/-- C8: the claim holds for the S3-backed variant's logout (part_001:
destroy, purge every stored blob under the tenant's key namespace so a
subsequent get answers nothing, remove the record, report inactive),
but the node.js file never imports `fs`/`path`, so its
`deleteFolderRecursive` throws at call time: the node.js logout
destroys the client, then answers 500 and keeps the record, deleting
nothing; the node.js disconnect handler destroys the client and
removes the record but deletes no credential data (no deletion action
is ever emitted). -/
theorem C8_theorem :
    logoutRoute ⟨[("u", ⟨3, true, none, none⟩)], 4⟩ "u"
      = (⟨[("u", ⟨3, true, none, none⟩)], 4⟩, [Action.destroyClient 3],
          Resp.errMsg 500 "Failed to log out user u")
    ∧ disconnectedEvent ⟨[("u", ⟨3, true, none, none⟩)], 4⟩ "u"
        = (⟨[], 4⟩, [Action.destroyClient 3])
    ∧ WaP1.logoutRoute
        ⟨[("u", ⟨3, true, none, none⟩)], [("wwebjs_auth/session-u/auth", "BLOB")], 4⟩ "u"
      = (⟨[], [], 4⟩,
          [Action.destroyClient 3, Action.s3DeleteAll "wwebjs_auth/session-u/"],
          Resp.okMsg "User u successfully logged out.")
    ∧ alookup ([] : List (String × String)) "wwebjs_auth/session-u/auth" = none
    ∧ WaP1.checkActive ⟨[], [], 4⟩ "u" = Resp.errMsg 200 "Session is not active" := by
  refine ⟨by decide, by decide, by decide, by decide, by decide⟩

/-! ### Claim C9: restore before client construction -/

/-- C9: creating a session in the S3-backed variant (part_001) first
attempts to fetch the tenant's stored credential blob (the restore is
the head of the action trace), constructs and starts the automated
client only afterwards (the construction is the trace's last action,
preceded by a write of the blob into the `/tmp` location the client is
constructed over when the blob exists), and treats an absent blob as
no error: creation still installs the fresh record and starts the
client. -/
theorem C9_theorem :
    (∀ st u, ((WaP1.initializeClient st u).2).head?
        = some (Action.s3Get (WaP1.authKey u)))
    ∧ (∀ st u, ((WaP1.initializeClient st u).2).getLast?
        = some (Action.newClient st.nextClientId))
    ∧ (∀ st u, alookup st.store (WaP1.authKey u) = none →
        (WaP1.initializeClient st u).2
          = [Action.s3Get (WaP1.authKey u), Action.newClient st.nextClientId]
        ∧ alookup ((WaP1.initializeClient st u).1).clients u
            = some ⟨st.nextClientId, false, none, none⟩)
    ∧ (∀ st u d, alookup st.store (WaP1.authKey u) = some d →
        (WaP1.initializeClient st u).2
          = [Action.s3Get (WaP1.authKey u), Action.fsWrite (WaP1.tmpAuthPath u),
              Action.newClient st.nextClientId]) := by
  refine ⟨?_, ?_, ?_, ?_⟩
  · intro st u
    unfold WaP1.initializeClient
    cases hl : alookup st.store (WaP1.authKey u) <;> simp [hl]
  · intro st u
    unfold WaP1.initializeClient
    cases hl : alookup st.store (WaP1.authKey u) <;> simp [hl]
  · intro st u h
    constructor
    · simp [WaP1.initializeClient, h]
    · show alookup ((WaP1.initializeClient st u).1).clients u = _
      simp only [WaP1.initializeClient, h]
      exact alookup_aset_self _ _ _
  · intro st u d h
    simp [WaP1.initializeClient, h]

/-- Witness for C9 at concrete inputs: with a stored blob the restore
actions precede the client construction; with no blob the creation
still proceeds to a fresh record. -/
theorem C9_witness :
    ((WaP1.initializeClient ⟨[], [("wwebjs_auth/session-t/auth", "B")], 5⟩ "t").2).head?
        = some (Action.s3Get (WaP1.authKey "t"))
    ∧ ((WaP1.initializeClient ⟨[], [("wwebjs_auth/session-t/auth", "B")], 5⟩ "t").2).getLast?
        = some (Action.newClient 5)
    ∧ ((WaP1.initializeClient ⟨[], [("wwebjs_auth/session-t/auth", "B")], 5⟩ "t").2
        = [Action.s3Get (WaP1.authKey "t"), Action.fsWrite (WaP1.tmpAuthPath "t"),
            Action.newClient 5])
    ∧ ((WaP1.initializeClient ⟨[], [], 5⟩ "t").2
          = [Action.s3Get (WaP1.authKey "t"), Action.newClient 5]
        ∧ alookup ((WaP1.initializeClient ⟨[], [], 5⟩ "t").1).clients "t"
            = some ⟨5, false, none, none⟩) :=
  ⟨C9_theorem.1 _ "t",
    C9_theorem.2.1 _ "t",
    C9_theorem.2.2.2 _ "t" "B" (by decide),
    C9_theorem.2.2.1 _ "t" (by decide)⟩

end WaGateway
